import Mathlib

/-!
Verification of the HospitalCanvas retrieval-augmented clinical Q&A pipeline.

The development shallowly embeds the two Python implementations of the
pipeline:

* `src/backend/document_processor.py` and `src/backend/rag_pipeline.py`
  (namespace `Backend`), and
* `src/ai-pipeline/document_processor.py` and `src/ai-pipeline/rag_pipeline.py`
  (namespace `AIPipeline`).

The SQLite database is modelled as in-memory lists of rows, one list per
table; the SQL statements issued by the pipeline (all `SELECT`s over those
tables) are modelled as list filters/sorts/finds.  Python's stable
`list.sort` and SQL `ORDER BY` are modelled by a generic stable insertion
sort `sortBy`.  The external LLM services (OpenAI / Ollama) are opaque
request/response collaborators and are modelled by the oracle type
`LLMBehavior`; Python floats that only ever hold small exact constants and
ratios of small integers are modelled by `ℚ`.
-/

set_option maxRecDepth 10000

namespace HospitalCanvas

/-! ## String primitives

Models of the Python and SQLite string operations used by the pipeline:
lower-casing (`strLower`), `str.split()` (`wordsOf`), the Python substring
test `a in b` (`chSubstr`), and the SQLite `LIKE` operator (`likeMatch`,
with `%` and `_` wildcards).  They are written as structural recursions
over character lists so that concrete runs of the pipeline reduce inside
the kernel. -/

/-- ASCII lower-casing of one character.  SQLite's `LOWER` lower-cases
ASCII letters only, and every string the pipeline compares after Python's
`str.lower()` in the claims below is ASCII. -/
def lowerChar (c : Char) : Char :=
  if 65 ≤ c.toNat && c.toNat ≤ 90 then Char.ofNat (c.toNat + 32) else c

/-- Lower-casing of a string, character by character. -/
def strLower (s : String) : String :=
  String.mk (s.data.map lowerChar)

/-- Does the string (second argument) start with the pattern (first argument)? -/
def chHasPfx : List Char → List Char → Bool
  | [], _ => true
  | _ :: _, [] => false
  | p :: ps, c :: cs => p == c && chHasPfx ps cs

/-- Python's substring test `pat in s` on lists of characters:
`pat` occurs contiguously somewhere in `s` (the empty pattern always matches). -/
def chSubstr (pat : List Char) : List Char → Bool
  | [] => chHasPfx pat []
  | c :: cs => chHasPfx pat (c :: cs) || chSubstr pat cs

/-- Does `f` accept some suffix of the list (the list itself included)? -/
def anySuffix (f : List Char → Bool) : List Char → Bool
  | [] => f []
  | c :: s2 => f (c :: s2) || anySuffix f s2

/-- SQLite `LIKE` pattern matching: `%` matches any run of characters
(i.e. the rest of the pattern must match some suffix), `_` matches any
single character, anything else matches itself. -/
def likeMatch : List Char → List Char → Bool
  | [], s => s.isEmpty
  | '%' :: ps, s => anySuffix (likeMatch ps) s
  | '_' :: ps, s =>
      (match s with
       | [] => false
       | _ :: s2 => likeMatch ps s2)
  | p :: ps, s =>
      (match s with
       | [] => false
       | c :: s2 => p == c && likeMatch ps s2)

/-- The pattern `"%" + q + "%"` that `rag_pipeline.py` builds for the
pre-computed Q&A lookup (`f"%{question}%"`). -/
def likePattern (q : String) : List Char :=
  '%' :: (q.toList ++ ['%'])

/-- Accumulator pass of `wordsOf`: `acc` holds the reversed current word. -/
def wordsAux (acc : List Char) : List Char → List String
  | [] => if acc.isEmpty then [] else [String.mk acc.reverse]
  | c :: cs =>
      if c.isWhitespace then
        if acc.isEmpty then wordsAux [] cs
        else String.mk acc.reverse :: wordsAux [] cs
      else wordsAux (c :: acc) cs

/-- Python `s.split()`: split on whitespace runs, discarding empty pieces. -/
def wordsOf (s : String) : List String :=
  wordsAux [] s.data

/-! ## Stable insertion sort

`sortBy ahead l` sorts `l`, keeping `y` ahead of a later element `x`
exactly when `ahead y x` holds.  With `ahead y x := y.key > x.key` this is
the unique stable descending sort, i.e. Python's `list.sort(key=...,
reverse=True)`; with `ahead y x := y.key ≤ x.key` it is a stable ascending
sort modelling SQL `ORDER BY key`. -/

/-- Insert `x` behind every `y` with `ahead y x`. -/
def insertBy (ahead : α → α → Bool) (x : α) : List α → List α
  | [] => [x]
  | y :: ys => if ahead y x then y :: insertBy ahead x ys else x :: y :: ys

/-- Stable insertion sort with the `ahead` comparator. -/
def sortBy (ahead : α → α → Bool) : List α → List α
  | [] => []
  | x :: xs => insertBy ahead x (sortBy ahead xs)

/-! ## Data model

One structure per SQLite table row consumed by the pipeline, and the
database itself as one list of rows per table (`patients`, `ai_summaries`,
`clinical_data`, `documents`, `document_embeddings`, `qa_pairs`).
Timestamp columns (`generated_at`, `date_recorded`) are modelled as `Nat`
so that `ORDER BY ... DESC` is meaningful; numeric clinical values are
carried as the strings the fallback templates interpolate. -/

structure PatientRow where
  id : String
  name : String
  age : Nat
  gender : String
deriving DecidableEq, Repr

structure SummaryRow where
  patient_id : String
  summary_text : String
  generated_at : Nat
deriving DecidableEq, Repr

structure ClinicalRow where
  patient_id : String
  data_type : String
  name : String
  value : String
  unit : String
  reference_range : String
  date_recorded : Nat
deriving DecidableEq, Repr

/-- Projection of a `clinical_data` row as selected by
`get_patient_clinical_context` (no `patient_id`/`data_type` columns). -/
structure LabEntry where
  name : String
  value : String
  unit : String
  reference_range : String
  date_recorded : Nat
deriving DecidableEq, Repr

structure DocumentRow where
  id : String
  patient_id : String
  filename : String
deriving DecidableEq, Repr

structure EmbeddingRow where
  document_id : String
  chunk_text : String
  chunk_index : Nat
  page_number : Nat
deriving DecidableEq, Repr

structure QARow where
  patient_id : String
  question : String
  answer : String
  source_document_id : String
  source_page : Nat
  confidence_score : Option ℚ
deriving DecidableEq, Repr

structure DB where
  patients : List PatientRow
  ai_summaries : List SummaryRow
  clinical_data : List ClinicalRow
  documents : List DocumentRow
  document_embeddings : List EmbeddingRow
  qa_pairs : List QARow
deriving DecidableEq, Repr

/-- A chunk dict as assembled by `retrieve_relevant_chunks` from the
`document_embeddings ⋈ documents` join. -/
structure Chunk where
  text : String
  page_number : Nat
  filename : String
  chunk_index : Nat
deriving DecidableEq, Repr

/-- A chunk dict after `find_relevant_chunks` added `relevance_score`. -/
structure ScoredChunk extends Chunk where
  relevance_score : ℚ
deriving DecidableEq, Repr

/-- Comparator for Python's `scored_chunks.sort(key=lambda x:
x["relevance_score"], reverse=True)`: `y` stays ahead of a later element
`x` exactly when its score is strictly greater (stable descending sort). -/
def scoreAhead (y x : ScoredChunk) : Bool :=
  decide (x.relevance_score < y.relevance_score)

namespace Backend

/-! ### `src/backend/document_processor.py` -/

/-- The relevance score `DocumentProcessor.find_relevant_chunks`
(backend variant, lines 18-33) assigns to one chunk text:
`len(query_words ∩ text_words) / len(query_words)` over lower-cased
whitespace-split word sets (`0` if the query has no words), plus `0.5`
when the lower-cased query occurs verbatim in the lower-cased text. -/
def chunkScore (query text : String) : ℚ :=
  let query_lower := strLower query
  let query_words := (wordsOf query_lower).dedup
  let text_lower := strLower text
  let text_words := wordsOf text_lower
  let common_words := query_words.filter (fun w => decide (w ∈ text_words))
  let relevance_score : ℚ :=
    if query_words.isEmpty then 0
    else (common_words.length : ℚ) / (query_words.length : ℚ)
  if chSubstr query_lower.toList text_lower.toList then relevance_score + 1 / 2
  else relevance_score

/-- `DocumentProcessor.find_relevant_chunks` (backend variant): score every
chunk (no positivity filter and no empty-input guard in this variant),
stable-sort by score descending, return the first `max_chunks`. -/
def findRelevantChunks (chunks : List Chunk) (query : String)
    (max_chunks : Nat) : List ScoredChunk :=
  let scored_chunks := chunks.map (fun chunk =>
    ({ toChunk := chunk, relevance_score := chunkScore query chunk.text } : ScoredChunk))
  (sortBy scoreAhead scored_chunks).take max_chunks

end Backend

namespace AIPipeline

/-! ### `src/ai-pipeline/document_processor.py` -/

/-- The relevance score of `DocumentProcessor.find_relevant_chunks`
(ai-pipeline variant, lines 149-157): word-overlap fraction only, with no
phrase-match bonus. -/
def chunkScore (query text : String) : ℚ :=
  let query_words := (wordsOf (strLower query)).dedup
  let chunk_words := wordsOf (strLower text)
  let overlap := (query_words.filter (fun w => decide (w ∈ chunk_words))).length
  if query_words.isEmpty then 0
  else (overlap : ℚ) / (query_words.length : ℚ)

/-- `DocumentProcessor.find_relevant_chunks` (ai-pipeline variant):
returns `[]` for an empty chunk list or empty query, keeps only chunks
with strictly positive score, stable-sorts by score descending and takes
the first `max_chunks`. -/
def findRelevantChunks (chunks : List Chunk) (query : String)
    (max_chunks : Nat) : List ScoredChunk :=
  if chunks.isEmpty || query.data.isEmpty then []
  else
    let scored_chunks := chunks.filterMap (fun chunk =>
      let score := chunkScore query chunk.text
      if 0 < score then
        some ({ toChunk := chunk, relevance_score := score } : ScoredChunk)
      else none)
    (sortBy scoreAhead scored_chunks).take max_chunks

end AIPipeline

/-! ## Clinical context assembly

`RAGPipeline.get_patient_clinical_context` is textually identical in
`src/backend/rag_pipeline.py` (lines 86-129) and
`src/ai-pipeline/rag_pipeline.py` (lines 161-204), so it is embedded once.
The Python function builds a dict `context`; the keys `"patient"` and
`"summary"` are only assigned when the corresponding row exists, while
`"vitals"` and `"labs"` are always assigned (possibly to empty lists).
`ClinicalContext.dictKeys` records exactly the keys the dict ends up with,
so that the truthiness test `if not clinical_context` in `answer_question`
can be embedded faithfully. -/

structure ClinicalContext where
  patient : Option PatientRow
  summary : Option String
  vitals : List LabEntry
  labs : List LabEntry
deriving DecidableEq, Repr

/-- The keys of the Python `context` dict (in assignment order). -/
def ClinicalContext.dictKeys (c : ClinicalContext) : List String :=
  (match c.patient with | some _ => ["patient"] | none => []) ++
    (match c.summary with | some _ => ["summary"] | none => []) ++
    ["vitals", "labs"]

/-- Python truthiness of the `context` dict: non-empty iff it has a key. -/
def ClinicalContext.truthy (c : ClinicalContext) : Bool :=
  !c.dictKeys.isEmpty

/-- Projection used by the vitals/labs `SELECT name, value, unit,
reference_range, date_recorded` statements. -/
def ClinicalRow.proj (r : ClinicalRow) : LabEntry :=
  ⟨r.name, r.value, r.unit, r.reference_range, r.date_recorded⟩

/-- `ORDER BY generated_at DESC` comparator. -/
def summaryAhead (y x : SummaryRow) : Bool :=
  decide (x.generated_at < y.generated_at)

/-- `ORDER BY date_recorded DESC` comparator. -/
def clinicalAhead (y x : ClinicalRow) : Bool :=
  decide (x.date_recorded < y.date_recorded)

/-- `RAGPipeline.get_patient_clinical_context`: patient row by id
(`fetchone`), latest AI summary (`ORDER BY generated_at DESC LIMIT 1`),
the 10 most recent vitals and the 20 most recent labs. -/
def getPatientClinicalContext (db : DB) (patient_id : String) : ClinicalContext :=
  { patient := db.patients.find? (fun p => p.id == patient_id)
    summary :=
      ((sortBy summaryAhead
          (db.ai_summaries.filter (fun s => s.patient_id == patient_id))).head?).map
        (fun s => s.summary_text)
    vitals :=
      (((sortBy clinicalAhead
          (db.clinical_data.filter
            (fun r => r.patient_id == patient_id && r.data_type == "vital"))).map
          ClinicalRow.proj).take 10)
    labs :=
      (((sortBy clinicalAhead
          (db.clinical_data.filter
            (fun r => r.patient_id == patient_id && r.data_type == "lab"))).map
          ClinicalRow.proj).take 20) }

/-- `ORDER BY de.chunk_index` comparator (ascending). -/
def idxAhead (y x : Chunk) : Bool :=
  decide (y.chunk_index ≤ x.chunk_index)

/-- The chunk rows `retrieve_relevant_chunks` fetches: the
`document_embeddings ⋈ documents` join restricted to the patient, in
`ORDER BY de.chunk_index` order (identical SQL in both pipeline files). -/
def fetchPatientChunks (db : DB) (patient_id : String) : List Chunk :=
  sortBy idxAhead
    (db.document_embeddings.flatMap (fun de =>
      (db.documents.filter
        (fun d => d.id == de.document_id && d.patient_id == patient_id)).map
        (fun d =>
          ({ text := de.chunk_text, page_number := de.page_number,
             filename := d.filename, chunk_index := de.chunk_index } : Chunk))))

/-! ## Answer resolution

Shared result envelope, LLM oracle and pre-computed Q&A lookup, then the
two `answer_question` implementations. -/

/-- One entry of the `sources` list of an answer.  The Python dicts carry
different key sets per branch: the pre-computed branch has no
`relevance_score` key and the fallback branches of the ai-pipeline variant
drop it again, which is modelled by an `Option`. -/
structure AnswerSource where
  document : String
  page : Nat
  relevance_score : Option ℚ
  srcType : String
deriving DecidableEq, Repr

/-- The result dict of `answer_question`.  Keys that only some branches
assign (`error`, `confidence_score`, `method`, `chunks_used`) are
`Option`s. -/
structure AnswerResult where
  success : Bool
  error : Option String
  answer : String
  confidence_score : Option ℚ
  sources : List AnswerSource
  method : Option String
  chunks_used : Option Nat
deriving DecidableEq, Repr

/-- Oracle for one external LLM service as seen from `answer_question`:
the service may be unavailable (`self.use_openai`/`self.use_ollama`
false), the call may raise, or it may return a `{success, response,
confidence_score?}` payload. -/
inductive LLMBehavior where
  | unavailable : LLMBehavior
  | raises : LLMBehavior
  | result (success : Bool) (response : String) (confidence_score : Option ℚ) : LLMBehavior
deriving DecidableEq, Repr

/-- The LLM call raised or returned a failure payload (the two conditions
under which `answer_question` falls through past an available service). -/
def LLMBehavior.fails : LLMBehavior → Bool
  | .raises => true
  | .result ok _ _ => !ok
  | .unavailable => false

/-- The service was attempted at all (it was available when control
reached its branch). -/
def LLMBehavior.invoked : LLMBehavior → Bool
  | .unavailable => false
  | _ => true

/-- Which internal calls `answer_question` performed (backend variant). -/
structure CallTrace where
  retrievalCalled : Bool
  llmCalled : Bool
deriving DecidableEq, Repr

/-- Which internal calls `answer_question` performed (ai-pipeline variant,
which has both an OpenAI and an Ollama client). -/
structure AIPTrace where
  retrievalCalled : Bool
  openaiCalled : Bool
  ollamaCalled : Bool
deriving DecidableEq, Repr

/-- The pre-computed Q&A lookup, identical in both files:
`SELECT ... FROM qa_pairs WHERE patient_id = ? AND LOWER(question) LIKE
LOWER(?)` with parameter `f"%{question}%"`, followed by `fetchone()`.
Note the direction: the row matches when the (lower-cased) incoming
question occurs inside the row's stored question text, with `%`/`_` of
the incoming question acting as `LIKE` wildcards. -/
def cacheLookup (db : DB) (patient_id question : String) : Option QARow :=
  db.qa_pairs.find? (fun r =>
    r.patient_id == patient_id &&
      likeMatch (likePattern (strLower question)) (strLower r.question).toList)

/-- Python's `x or d` for an optional float: `d` when `x` is `None` or
`0.0` (both falsy), else the stored value. -/
def pyOrQ (x : Option ℚ) (d : ℚ) : ℚ :=
  match x with
  | none => d
  | some v => if v = 0 then d else v

/-- The `sources` entry built for a retrieved chunk on the LLM path
(`type "document_chunk"`, identical in both files). -/
def chunkSource (ch : ScoredChunk) : AnswerSource :=
  { document := ch.filename, page := ch.page_number,
    relevance_score := some ch.relevance_score, srcType := "document_chunk" }

/-- The `sources` entry of a pre-computed answer: the joined filename (or
`"Unknown"` when the source document row is missing) and the cached page. -/
def precomputedSource (db : DB) (qa_row : QARow) : AnswerSource :=
  { document :=
      match db.documents.find? (fun d => d.id == qa_row.source_document_id) with
      | some d => d.filename
      | none => "Unknown"
    page := qa_row.source_page, relevance_score := none,
    srcType := "pre_computed" }

/-- The result dict returned on a pre-computed Q&A hit (identical in both
files): the cached answer, `confidence_score or 0.8`, a single
`pre_computed` source, `method "database_lookup"`. -/
def databaseLookupResult (db : DB) (qa_row : QARow) : AnswerResult :=
  { success := true, error := none, answer := qa_row.answer,
    confidence_score := some (pyOrQ qa_row.confidence_score (4 / 5)),
    sources := [precomputedSource db qa_row],
    method := some "database_lookup", chunks_used := none }

namespace Backend

/-! ### `src/backend/rag_pipeline.py` -/

/-- `RAGPipeline.retrieve_relevant_chunks` (backend): fetch the patient's
chunks in `chunk_index` order, return `[]` when there are none, else rank
them with the backend `find_relevant_chunks`. -/
def retrieveRelevantChunks (db : DB) (patient_id query : String)
    (max_chunks : Nat) : List ScoredChunk :=
  let chunks := fetchPatientChunks db patient_id
  if chunks.isEmpty then []
  else findRelevantChunks chunks query max_chunks

/-- `RAGPipeline._generate_fallback_answer` (backend, lines 225-252).
The kidney branch scans the labs in order, each matching lab overwriting
the previous value (`elif` semantics); it only answers when both a
creatinine and an eGFR lab were found, otherwise control falls through to
the summary branch, then to the generic branches. -/
def generateFallbackAnswer (question : String)
    (clinical_context : ClinicalContext) (chunks : List ScoredChunk) : String :=
  let patient_name :=
    match clinical_context.patient with
    | some p => p.name
    | none => "the patient"
  let question_lower := strLower question
  let kidneyQ :=
    chSubstr "kidney".toList question_lower.toList ||
      chSubstr "renal".toList question_lower.toList ||
      chSubstr "creatinine".toList question_lower.toList
  let labScan :=
    clinical_context.labs.foldl
      (fun (acc : Option String × Option String) lab =>
        let name_lower := strLower lab.name
        let v := lab.value
        let u := lab.unit
        if chSubstr "creatinine".toList name_lower.toList then
          (some s!"{v} {u}", acc.2)
        else if chSubstr "egfr".toList name_lower.toList then
          (acc.1, some s!"{v} {u}")
        else acc)
      (none, none)
  let kidneyAnswer : Option String :=
    if kidneyQ then
      match labScan with
      | (some creatinine, some egfr) =>
          some s!"Based on lab results for {patient_name}, creatinine is {creatinine} and eGFR is {egfr}. These values indicate significant kidney function impairment."
      | _ => none
    else none
  match kidneyAnswer with
  | some a => a
  | none =>
    let summaryQ :=
      chSubstr "summary".toList question_lower.toList ||
        chSubstr "overview".toList question_lower.toList
    let summary := clinical_context.summary.getD ""
    if summaryQ && !summary.data.isEmpty then
      s!"Clinical summary for {patient_name}: {summary}"
    else if !chunks.isEmpty then
      s!"Based on clinical documents for {patient_name}, relevant information was found but detailed analysis requires full AI system. Please consult documents directly or contact healthcare provider."
    else
      s!"Insufficient information available to answer that question about {patient_name}."

/-- `RAGPipeline.answer_question` (backend, lines 131-223), with the
OpenAI service abstracted as an `LLMBehavior` oracle.  Control flow of the
source: assemble the clinical context; if the context dict is falsy return
the `Patient not found` failure; otherwise retrieve chunks, check the
pre-computed Q&A cache, try OpenAI (exceptions caught, failure payloads
ignored), and finally fall back to the rule-based answer reusing the
sources list built for the LLM path.  The second component records which
calls were made. -/
def answerQuestion (db : DB) (llm : LLMBehavior)
    (patient_id question : String) : AnswerResult × CallTrace :=
  let clinical_context := getPatientClinicalContext db patient_id
  if clinical_context.truthy = false then
    ({ success := false, error := some "Patient not found", answer := "",
       confidence_score := none, sources := [], method := none,
       chunks_used := none },
     { retrievalCalled := false, llmCalled := false })
  else
    let relevant_chunks := retrieveRelevantChunks db patient_id question 3
    match cacheLookup db patient_id question with
    | some qa_row =>
        (databaseLookupResult db qa_row,
         { retrievalCalled := true, llmCalled := false })
    | none =>
      let sources := relevant_chunks.map chunkSource
      let fallback : AnswerResult :=
        { success := true, error := none,
          answer := generateFallbackAnswer question clinical_context relevant_chunks,
          confidence_score := some (3 / 10), sources := sources,
          method := some "fallback", chunks_used := none }
      match llm with
      | .unavailable => (fallback, { retrievalCalled := true, llmCalled := false })
      | .raises => (fallback, { retrievalCalled := true, llmCalled := true })
      | .result ok resp conf =>
          if ok then
            ({ success := true, error := none, answer := resp,
               confidence_score := some (conf.getD (4 / 5)), sources := sources,
               method := some "rag_openai", chunks_used := none },
             { retrievalCalled := true, llmCalled := true })
          else (fallback, { retrievalCalled := true, llmCalled := true })

end Backend

namespace AIPipeline

/-! ### `src/ai-pipeline/rag_pipeline.py` -/

/-- `RAGPipeline.retrieve_relevant_chunks` (ai-pipeline): same SQL fetch,
ranking with the ai-pipeline `find_relevant_chunks`. -/
def retrieveRelevantChunks (db : DB) (patient_id query : String)
    (max_chunks : Nat) : List ScoredChunk :=
  let chunks := fetchPatientChunks db patient_id
  if chunks.isEmpty then []
  else findRelevantChunks chunks query max_chunks

/-- `RAGPipeline._generate_fallback_answer` (ai-pipeline, lines 335-366):
same branch structure as the backend variant with longer template texts. -/
def generateFallbackAnswer (question : String)
    (clinical_context : ClinicalContext) (chunks : List ScoredChunk) : String :=
  let patient_name :=
    match clinical_context.patient with
    | some p => p.name
    | none => "the patient"
  let question_lower := strLower question
  let kidneyQ :=
    chSubstr "kidney".toList question_lower.toList ||
      chSubstr "renal".toList question_lower.toList ||
      chSubstr "creatinine".toList question_lower.toList
  let labScan :=
    clinical_context.labs.foldl
      (fun (acc : Option String × Option String) lab =>
        let name_lower := strLower lab.name
        let v := lab.value
        let u := lab.unit
        if chSubstr "creatinine".toList name_lower.toList then
          (some s!"{v} {u}", acc.2)
        else if chSubstr "egfr".toList name_lower.toList then
          (acc.1, some s!"{v} {u}")
        else acc)
      (none, none)
  let kidneyAnswer : Option String :=
    if kidneyQ then
      match labScan with
      | (some creatinine, some egfr) =>
          some s!"Based on the available lab results for {patient_name}, the creatinine level is {creatinine} and eGFR is {egfr}. These values indicate significant kidney function impairment that requires medical attention."
      | _ => none
    else none
  match kidneyAnswer with
  | some a => a
  | none =>
    let summaryQ :=
      chSubstr "summary".toList question_lower.toList ||
        chSubstr "overview".toList question_lower.toList
    let summary := clinical_context.summary.getD ""
    if summaryQ && !summary.data.isEmpty then
      s!"Here\x27s the clinical summary for {patient_name}: {summary}"
    else if !chunks.isEmpty then
      s!"Based on the available clinical documents for {patient_name}, I found relevant information but cannot provide a detailed analysis without the AI system fully operational. Please consult the clinical documents directly or contact the healthcare provider for specific medical questions."
    else
      s!"I apologize, but I don\x27t have sufficient information to answer that question about {patient_name}. Please ensure all clinical documents have been processed and the AI system is properly configured."

/-- `RAGPipeline.answer_question` (ai-pipeline, lines 206-333), with the
OpenAI and Ollama clients abstracted as two `LLMBehavior` oracles tried in
that order.  Differences from the backend variant: an Ollama leg with
fixed confidence `0.7` and method `"rag_ollama"`, `chunks_used` on the LLM
results, and the fallback result rebuilding its sources list with
`type "fallback"` (and no `relevance_score` key).  The pass-through
`model_stats` diagnostic dict (raw fields of the oracle's payload, unused
by the resolver) is not modelled. -/
def answerQuestion (db : DB) (openaiB ollamaB : LLMBehavior)
    (patient_id question : String) : AnswerResult × AIPTrace :=
  let clinical_context := getPatientClinicalContext db patient_id
  if clinical_context.truthy = false then
    ({ success := false, error := some "Patient not found", answer := "",
       confidence_score := none, sources := [], method := none,
       chunks_used := none },
     { retrievalCalled := false, openaiCalled := false, ollamaCalled := false })
  else
    let relevant_chunks := retrieveRelevantChunks db patient_id question 3
    match cacheLookup db patient_id question with
    | some qa_row =>
        (databaseLookupResult db qa_row,
         { retrievalCalled := true, openaiCalled := false, ollamaCalled := false })
    | none =>
      let sources := relevant_chunks.map chunkSource
      let fallback : AnswerResult :=
        { success := true, error := none,
          answer := generateFallbackAnswer question clinical_context relevant_chunks,
          confidence_score := some (3 / 10),
          sources := relevant_chunks.map (fun ch =>
            ({ document := ch.filename, page := ch.page_number,
               relevance_score := none, srcType := "fallback" } : AnswerSource)),
          method := some "fallback", chunks_used := none }
      match openaiB with
      | .result true resp conf =>
          ({ success := true, error := none, answer := resp,
             confidence_score := some (conf.getD (4 / 5)), sources := sources,
             method := some "rag_openai",
             chunks_used := some relevant_chunks.length },
           { retrievalCalled := true, openaiCalled := true, ollamaCalled := false })
      | _ =>
        match ollamaB with
        | .result true resp _ =>
            ({ success := true, error := none, answer := resp,
               confidence_score := some (7 / 10), sources := sources,
               method := some "rag_ollama",
               chunks_used := some relevant_chunks.length },
             { retrievalCalled := true, openaiCalled := openaiB.invoked,
               ollamaCalled := true })
        | _ =>
            (fallback,
             { retrievalCalled := true, openaiCalled := openaiB.invoked,
               ollamaCalled := ollamaB.invoked })

end AIPipeline

/-! ## The SQL statements issued by `answer_question`

For the frame claim, the individual SQL statements the backend
`answer_question` executes are modelled as data, together with their
effect on the database state.  Every statement in
`answer_question` / `get_patient_clinical_context` /
`retrieve_relevant_chunks` is a `SELECT`, so `applyQuery` leaves every
table untouched in every case. -/

/-- The SQL statement shapes issued by the backend pipeline, one
constructor per `conn.execute(...)` site:
`SELECT id, name, age, gender FROM patients ...` (line 93),
`SELECT summary_text FROM ai_summaries ...` (line 102),
`SELECT name, value, ... FROM clinical_data ...` (lines 111 and 117),
the `document_embeddings ⋈ documents` chunk fetch (line 56),
the `qa_pairs` lookup (line 151) and
`SELECT filename FROM documents WHERE id = ?` (line 159). -/
inductive Query where
  | selectPatient (patient_id : String) : Query
  | selectSummary (patient_id : String) : Query
  | selectClinical (patient_id data_type : String) (lim : Nat) : Query
  | selectChunksJoin (patient_id : String) : Query
  | selectQAPairs (patient_id : String) (pattern : List Char) : Query
  | selectDocFilename (document_id : String) : Query
deriving DecidableEq, Repr

/-- Effect of one statement on the stored tables.  Each of the statements
issued by the pipeline is a read, so each case returns the state
unchanged. -/
def applyQuery (db : DB) : Query → DB
  | .selectPatient _ => db
  | .selectSummary _ => db
  | .selectClinical _ _ _ => db
  | .selectChunksJoin _ => db
  | .selectQAPairs _ _ => db
  | .selectDocFilename _ => db

/-- The sequence of SQL statements one call of the backend
`answer_question` issues, in execution order: the four context statements
always run; the chunk fetch and the Q&A lookup run unless the context dict
was falsy; the filename lookup runs only on a cache hit.  (The LLM call
and the fallback synthesis issue no statements.) -/
def answerQuestionStmts (db : DB) (patient_id question : String) : List Query :=
  [Query.selectPatient patient_id, Query.selectSummary patient_id,
   Query.selectClinical patient_id "vital" 10,
   Query.selectClinical patient_id "lab" 20] ++
    (if (getPatientClinicalContext db patient_id).truthy = false then []
     else
       [Query.selectChunksJoin patient_id,
        Query.selectQAPairs patient_id (likePattern (strLower question))] ++
         (match cacheLookup db patient_id question with
          | some qa_row => [Query.selectDocFilename qa_row.source_document_id]
          | none => []))

/-! ## Spec-side relevance score

For the refinement claim about the retrieval score, a second scoring
function written from the spec's words (§4.2): "Score = |query_words ∩
chunk_words| / |query_words|, i.e. fraction of query terms present in the
chunk (0 if query has no words)" over lower-cased whitespace-split word
sets, "+0.5" exactly when the literal lower-cased query string appears as
a substring of the chunk text.  (`ℚ` division by the zero cardinality is
`0`, which is the spec's empty-query convention.) -/

/-- The lower-cased whitespace-split word set of a string. -/
def wordSet (s : String) : Finset String :=
  (wordsOf (strLower s)).toFinset

/-- The spec's scoring formula. -/
def specRelevanceScore (query text : String) : ℚ :=
  ((wordSet query ∩ wordSet text).card : ℚ) / ((wordSet query).card : ℚ) +
    (if chSubstr (strLower query).toList (strLower text).toList then 1 / 2 else 0)

/-! ## Concrete fixtures

Small databases and chunks used by the witness and counterexample
theorems. -/

/-- A database with no rows at all (in particular no patients). -/
def dbEmpty : DB :=
  { patients := [], ai_summaries := [], clinical_data := [], documents := [],
    document_embeddings := [], qa_pairs := [] }

/-- A seeded Q&A row whose stored question text is `"kidney"`. -/
def qaKidneyRow : QARow :=
  { patient_id := "p1", question := "kidney", answer := "Cached kidney answer.",
    source_document_id := "d1", source_page := 2,
    confidence_score := some (9 / 10) }

/-- A patient, one document with one chunk, and the seeded row
`qaKidneyRow`. -/
def dbKidney : DB :=
  { patients := [{ id := "p1", name := "Alice", age := 30, gender := "F" }]
    ai_summaries := []
    clinical_data := []
    documents := [{ id := "d1", patient_id := "p1", filename := "report.pdf" }]
    document_embeddings :=
      [{ document_id := "d1", chunk_text := "kidney function report",
         chunk_index := 0, page_number := 1 }]
    qa_pairs := [qaKidneyRow] }

/-- A seeded Q&A row whose stored confidence is `0.0`. -/
def qaZeroRow : QARow :=
  { patient_id := "p1", question := "what are the labs", answer := "Cached labs answer.",
    source_document_id := "d1", source_page := 1,
    confidence_score := some 0 }

/-- A patient with the single seeded Q&A row `qaZeroRow`. -/
def dbZeroConf : DB :=
  { patients := [{ id := "p1", name := "Alice", age := 30, gender := "F" }]
    ai_summaries := []
    clinical_data := []
    documents := [{ id := "d1", patient_id := "p1", filename := "report.pdf" }]
    document_embeddings := []
    qa_pairs := [qaZeroRow] }

/-- A patient with one document chunk and no Q&A rows (LLM-failure path). -/
def dbNoCache : DB :=
  { patients := [{ id := "p1", name := "Alice", age := 30, gender := "F" }]
    ai_summaries := []
    clinical_data := []
    documents := [{ id := "d1", patient_id := "p1", filename := "report.pdf" }]
    document_embeddings :=
      [{ document_id := "d1", chunk_text := "kidney function report",
         chunk_index := 0, page_number := 1 }]
    qa_pairs := [] }

/-- A plain chunk fixture. -/
def chunkHello : Chunk :=
  { text := "hello world", page_number := 1, filename := "doc.pdf", chunk_index := 0 }

/-- A second chunk fixture for the top-K bound counterexample. -/
def chunkNotes : Chunk :=
  { text := "general notes", page_number := 2, filename := "doc.pdf", chunk_index := 1 }

/-- A chunk containing every word of the query `"kidney function"`. -/
def chunkKidney : Chunk :=
  { text := "kidney function status report", page_number := 1,
    filename := "report.pdf", chunk_index := 0 }

/-- An empty clinical context record (unknown patient, no rows). -/
def ctxEmpty : ClinicalContext :=
  { patient := none, summary := none, vitals := [], labs := [] }

/-! # Helper lemmas -/

theorem mem_insertBy (ahead : α → α → Bool) (x z : α) (l : List α) :
    z ∈ insertBy ahead x l ↔ z = x ∨ z ∈ l := by
  induction l with
  | nil => simp [insertBy]
  | cons y ys ih =>
    simp only [insertBy]
    by_cases h : ahead y x = true
    · rw [if_pos h]
      simp only [List.mem_cons, ih, or_left_comm]
    · rw [if_neg h]
      simp only [List.mem_cons]

theorem mem_sortBy (ahead : α → α → Bool) (z : α) (l : List α) :
    z ∈ sortBy ahead l ↔ z ∈ l := by
  induction l with
  | nil => simp [sortBy]
  | cons y ys ih =>
    simp only [sortBy, mem_insertBy, List.mem_cons, ih]

theorem length_insertBy (ahead : α → α → Bool) (x : α) (l : List α) :
    (insertBy ahead x l).length = l.length + 1 := by
  induction l with
  | nil => rfl
  | cons y ys ih =>
    simp only [insertBy]
    by_cases h : ahead y x = true
    · rw [if_pos h]
      simp [ih]
    · rw [if_neg h]
      simp

theorem length_sortBy (ahead : α → α → Bool) (l : List α) :
    (sortBy ahead l).length = l.length := by
  induction l with
  | nil => rfl
  | cons y ys ih =>
    simp only [sortBy, length_insertBy, ih, List.length_cons]

/-- Inserting `x` behind the elements `ahead` of it preserves a pairwise
relation `Q`, provided `x` was `Q`-related to everything in the list and
`ahead a b` by itself forces `Q a b` (the passed-over pairs). -/
theorem pairwise_insertBy {Q : α → α → Prop} {ahead : α → α → Bool}
    (hq : ∀ a b, ahead a b = true → Q a b) (x : α) (l : List α)
    (hl : l.Pairwise Q) (hx : ∀ y ∈ l, Q x y) :
    (insertBy ahead x l).Pairwise Q := by
  induction l with
  | nil => simp [insertBy]
  | cons y ys ih =>
    rcases List.pairwise_cons.mp hl with ⟨hy, hys⟩
    simp only [insertBy]
    by_cases h : ahead y x = true
    · rw [if_pos h]
      rw [List.pairwise_cons]
      refine ⟨?_, ih hys (fun z hz => hx z (List.mem_cons_of_mem y hz))⟩
      intro z hz
      rcases (mem_insertBy ahead x z ys).mp hz with hzx | hzys
      · exact hzx ▸ hq y x h
      · exact hy z hzys
    · rw [if_neg h]
      rw [List.pairwise_cons]
      exact ⟨fun z hz => hx z hz, List.pairwise_cons.mpr ⟨hy, hys⟩⟩

/-- A stable sort preserves a pairwise relation that subsumes the
comparator (used with `Q a b := score a = score b → idx a ≤ idx b`). -/
theorem pairwise_sortBy {Q : α → α → Prop} {ahead : α → α → Bool}
    (hq : ∀ a b, ahead a b = true → Q a b) (l : List α)
    (hl : l.Pairwise Q) : (sortBy ahead l).Pairwise Q := by
  induction l with
  | nil => exact List.Pairwise.nil
  | cons y ys ih =>
    rcases List.pairwise_cons.mp hl with ⟨hy, hys⟩
    exact pairwise_insertBy hq y (sortBy ahead ys) (ih hys)
      (fun z hz => hy z ((mem_sortBy ahead z ys).mp hz))

/-- Inserting into a list that is pairwise `R`-ordered keeps it ordered,
for a transitive `R` decided by the comparator in both directions. -/
theorem pairwise_insertBy_total {R : α → α → Prop} {ahead : α → α → Bool}
    (htrue : ∀ a b, ahead a b = true → R a b)
    (hfalse : ∀ a b, ahead a b = false → R b a)
    (htrans : ∀ a b c, R a b → R b c → R a c) (x : α) (l : List α)
    (hl : l.Pairwise R) : (insertBy ahead x l).Pairwise R := by
  induction l with
  | nil => simp [insertBy]
  | cons y ys ih =>
    rcases List.pairwise_cons.mp hl with ⟨hy, hys⟩
    simp only [insertBy]
    by_cases h : ahead y x = true
    · rw [if_pos h]
      rw [List.pairwise_cons]
      refine ⟨?_, ih hys⟩
      intro z hz
      rcases (mem_insertBy ahead x z ys).mp hz with hzx | hzys
      · exact hzx ▸ htrue y x h
      · exact hy z hzys
    · rw [if_neg h]
      rw [List.pairwise_cons]
      have hxy : R x y := hfalse y x (by simpa using h)
      refine ⟨?_, List.pairwise_cons.mpr ⟨hy, hys⟩⟩
      intro z hz
      rcases List.mem_cons.mp hz with hzy | hzys
      · exact hzy ▸ hxy
      · exact htrans x y z hxy (hy z hzys)

/-- `sortBy` sorts: its output is pairwise ordered by any transitive `R`
decided by the comparator in both directions. -/
theorem pairwise_sortBy_total {R : α → α → Prop} {ahead : α → α → Bool}
    (htrue : ∀ a b, ahead a b = true → R a b)
    (hfalse : ∀ a b, ahead a b = false → R b a)
    (htrans : ∀ a b c, R a b → R b c → R a c) (l : List α) :
    (sortBy ahead l).Pairwise R := by
  induction l with
  | nil => exact List.Pairwise.nil
  | cons y ys ih =>
    exact pairwise_insertBy_total htrue hfalse htrans y (sortBy ahead ys) ih

/-- The `context` dict built by `get_patient_clinical_context` is always
truthy: the `"vitals"` and `"labs"` keys are assigned unconditionally, so
the dict is never empty (which is what makes the `Patient not found`
branch of `answer_question` unreachable). -/
theorem ClinicalContext.truthy_true (c : ClinicalContext) : c.truthy = true := by
  cases hp : c.patient <;> cases hs : c.summary <;>
    simp [ClinicalContext.truthy, ClinicalContext.dictKeys, hp, hs]

/-- Every statement shape the pipeline issues is a `SELECT` and leaves the
database unchanged. -/
theorem applyQuery_eq (db : DB) (q : Query) : applyQuery db q = db := by
  cases q <;> rfl

/-- Replaying any list of the pipeline's statements leaves the database
unchanged. -/
theorem foldl_applyQuery (l : List Query) (db : DB) :
    l.foldl applyQuery db = db := by
  induction l generalizing db with
  | nil => rfl
  | cons q qs ih => rw [List.foldl_cons, applyQuery_eq, ih]

/-- The length of a `filterMap` whose function is `some` exactly where a
boolean predicate holds equals the length of the corresponding `filter`. -/
theorem length_filterMap_eq_length_filter (g : α → Option β) (p : α → Bool)
    (h : ∀ a, (g a).isSome = p a) (l : List α) :
    (l.filterMap g).length = (l.filter p).length := by
  induction l with
  | nil => rfl
  | cons a as ih =>
    have ha := h a
    cases hg : g a with
    | none =>
      rw [hg] at ha
      simp only [List.filterMap_cons, hg, List.filter_cons, ← ha,
        Option.isSome_none, Bool.false_eq_true, if_false]
      exact ih
    | some b =>
      rw [hg] at ha
      simp only [List.filterMap_cons, hg, List.filter_cons, ← ha,
        Option.isSome_some, if_true, List.length_cons]
      exact congrArg Nat.succ ih

/-- Cardinality of an intersection of word sets, computed as the code
does: count the deduplicated words of the first list that occur in the
second. -/
theorem card_inter_eq_length {α : Type} [DecidableEq α] (l1 l2 : List α) :
    (l1.toFinset ∩ l2.toFinset).card =
      (l1.dedup.filter (fun w => decide (w ∈ l2))).length := by
  have h1 : l1.toFinset ∩ l2.toFinset =
      (l1.dedup.filter (fun w => decide (w ∈ l2))).toFinset := by
    ext a
    simp [List.mem_filter, List.mem_dedup]
  have h2 : (l1.dedup.filter (fun w => decide (w ∈ l2))).Nodup :=
    l1.nodup_dedup.filter _
  rw [h1, List.toFinset_card_of_nodup h2]

/-- The backend relevance score coincides with the spec's formula: the
word-overlap fraction over lower-cased whitespace-split word sets (`0`
when the query has no words, which on the spec side is division by a zero
cardinality), plus `0.5` exactly when the lower-cased query occurs in the
lower-cased chunk text. -/
theorem chunkScore_eq_spec (query text : String) :
    Backend.chunkScore query text = specRelevanceScore query text := by
  simp only [Backend.chunkScore, specRelevanceScore, wordSet]
  rw [card_inter_eq_length, List.card_toFinset]
  by_cases hsub : chSubstr (strLower query).toList (strLower text).toList = true
  · rw [if_pos hsub, if_pos hsub]
    by_cases hq : (wordsOf (strLower query)).dedup.isEmpty = true
    · rw [if_pos hq]
      have hnil : (wordsOf (strLower query)).dedup = [] := by
        simpa [List.isEmpty_iff] using hq
      rw [hnil]
      simp
    · rw [if_neg hq]
  · rw [if_neg hsub, if_neg hsub]
    by_cases hq : (wordsOf (strLower query)).dedup.isEmpty = true
    · rw [if_pos hq]
      have hnil : (wordsOf (strLower query)).dedup = [] := by
        simpa [List.isEmpty_iff] using hq
      rw [hnil]
      simp
    · rw [if_neg hq, add_zero]

/-- The chunk rows fetched for a patient come back in ascending
`chunk_index` order (`ORDER BY de.chunk_index`). -/
theorem fetchPatientChunks_sorted (db : DB) (patient_id : String) :
    (fetchPatientChunks db patient_id).Pairwise
      (fun a b => a.chunk_index ≤ b.chunk_index) := by
  simp only [fetchPatientChunks]
  apply pairwise_sortBy_total
  · intro a b hab
    simpa [idxAhead] using hab
  · intro a b hab
    have h : ¬ (a.chunk_index ≤ b.chunk_index) := by simpa [idxAhead] using hab
    omega
  · intro a b c h1 h2
    exact Nat.le_trans h1 h2

/-- Scoring, stable descending sort and top-K truncation preserve the
tie-break invariant: chunks that entered in ascending `chunk_index` order
and end up with equal scores stay in ascending `chunk_index` order. -/
theorem pairwise_tie_findRelevantChunks (chunks : List Chunk) (query : String)
    (max_chunks : Nat)
    (h : chunks.Pairwise (fun a b => a.chunk_index ≤ b.chunk_index)) :
    (Backend.findRelevantChunks chunks query max_chunks).Pairwise
      (fun a b : ScoredChunk =>
        a.relevance_score = b.relevance_score → a.chunk_index ≤ b.chunk_index) := by
  simp only [Backend.findRelevantChunks]
  apply List.Pairwise.sublist (List.take_sublist _ _)
  apply pairwise_sortBy
  · intro a b hab heq
    exfalso
    have hlt : b.relevance_score < a.relevance_score := by
      simpa [scoreAhead] using hab
    rw [heq] at hlt
    exact lt_irrefl _ hlt
  · rw [List.pairwise_map]
    exact h.imp (fun hab => fun _ => hab)

/-! # Claim theorems -/

/-- C1.  The claim says `answer_question` returns `success=false` with an
empty answer and no sources for an unknown patient id and does not proceed
to retrieval or an LLM call.  The code is wrong: the `context` dict always
contains the `"vitals"` and `"labs"` keys, so the `if not clinical_context`
guard never fires for a merely missing patient and the pipeline proceeds;
the call returns `success=true` with no `error` key — the code's own
`"Patient not found"` failure branch is unreachable dead code (absent a
database exception), contradicting its evident intent and end-to-end
scenario C of the spec. -/
theorem c1_unknown_patient_still_succeeds (db : DB) (llm : LLMBehavior)
    (patient_id question : String)
    (hmissing : db.patients.find? (fun p => p.id == patient_id) = none) :
    (Backend.answerQuestion db llm patient_id question).1.success = true ∧
    (Backend.answerQuestion db llm patient_id question).1.error = none ∧
    (Backend.answerQuestion db llm patient_id question).2.retrievalCalled = true := by
  have ht := ClinicalContext.truthy_true (getPatientClinicalContext db patient_id)
  simp only [Backend.answerQuestion, ht, Bool.true_eq_false, if_false]
  cases hc : cacheLookup db patient_id question with
  | some qa_row => simp [databaseLookupResult]
  | none =>
    cases llm with
    | unavailable => simp
    | raises => simp
    | result ok resp conf => cases ok <;> simp

/-- C1 witness: the concrete unknown patient id `"nonexistent-999"` on an
empty database, with no LLM configured. -/
theorem c1_unknown_patient_still_succeeds_witness :
    (Backend.answerQuestion dbEmpty .unavailable "nonexistent-999"
        "What is the current kidney function status?").1.success = true ∧
    (Backend.answerQuestion dbEmpty .unavailable "nonexistent-999"
        "What is the current kidney function status?").1.error = none ∧
    (Backend.answerQuestion dbEmpty .unavailable "nonexistent-999"
        "What is the current kidney function status?").2.retrievalCalled = true :=
  c1_unknown_patient_still_succeeds dbEmpty .unavailable "nonexistent-999"
    "What is the current kidney function status?" rfl

/-- C8 counterexample.  With the clinical context and the question held
identical, `_generate_fallback_answer` still depends on its third
argument: the empty chunk list yields the generic "insufficient
information" text while a non-empty one yields the "relevant information
was found" text, so two calls with identical context and question need not
return the same string. -/
theorem c8_chunks_change_fallback_counterexample :
    ¬ (Backend.generateFallbackAnswer "what is happening" ctxEmpty [] =
        Backend.generateFallbackAnswer "what is happening" ctxEmpty
          [{ toChunk := chunkHello, relevance_score := 0 }]) := by
  decide

/-- C8 (amended): `_generate_fallback_answer` is a pure function of all
three of its inputs — question, clinical context, and retrieved chunk
list; two calls agreeing on all three return bit-for-bit identical
strings, in both pipeline variants (the source reads only its arguments
and uses no randomness or ambient state). -/
theorem c8_fallback_deterministic (q1 q2 : String)
    (c1 c2 : ClinicalContext) (l1 l2 : List ScoredChunk)
    (hq : q1 = q2) (hc : c1 = c2) (hl : l1 = l2) :
    Backend.generateFallbackAnswer q1 c1 l1 =
        Backend.generateFallbackAnswer q2 c2 l2 ∧
    AIPipeline.generateFallbackAnswer q1 c1 l1 =
        AIPipeline.generateFallbackAnswer q2 c2 l2 := by
  subst hq
  subst hc
  subst hl
  exact ⟨rfl, rfl⟩

/-- C8 witness: the determinism law applied at a concrete question,
context and chunk list. -/
theorem c8_fallback_deterministic_witness :
    Backend.generateFallbackAnswer "status" ctxEmpty [] =
        Backend.generateFallbackAnswer "status" ctxEmpty [] ∧
    AIPipeline.generateFallbackAnswer "status" ctxEmpty [] =
        AIPipeline.generateFallbackAnswer "status" ctxEmpty [] :=
  c8_fallback_deterministic "status" "status" ctxEmpty ctxEmpty [] [] rfl rfl rfl

/-- C10.  `answer_question` only reads the database: replaying the exact
sequence of SQL statements it issues (`answerQuestionStmts`, all
`SELECT`s) over any starting state leaves every one of the six stored
tables — and hence the whole state — unchanged. -/
theorem c10_answer_question_read_only (db : DB) (patient_id question : String) :
    (answerQuestionStmts db patient_id question).foldl applyQuery db = db ∧
    ((answerQuestionStmts db patient_id question).foldl applyQuery db).patients =
        db.patients ∧
    ((answerQuestionStmts db patient_id question).foldl applyQuery db).clinical_data =
        db.clinical_data ∧
    ((answerQuestionStmts db patient_id question).foldl applyQuery db).ai_summaries =
        db.ai_summaries ∧
    ((answerQuestionStmts db patient_id question).foldl applyQuery db).documents =
        db.documents ∧
    ((answerQuestionStmts db patient_id question).foldl applyQuery db).document_embeddings =
        db.document_embeddings ∧
    ((answerQuestionStmts db patient_id question).foldl applyQuery db).qa_pairs =
        db.qa_pairs := by
  have h := foldl_applyQuery (answerQuestionStmts db patient_id question) db
  exact ⟨h, by rw [h], by rw [h], by rw [h], by rw [h], by rw [h], by rw [h]⟩

/-- C2 counterexample.  Two failures of the claim at concrete inputs.
First, the direction of the substring test: the stored pattern
`"kidney"` is a case-insensitive substring of the question `"kidney
function status"` (the spec's reading of a match), yet the code's lookup
(`stored LIKE '%question%'`) does not match and the call returns
`method="fallback"`, not the cached answer.  Second, on a genuine cache
hit (question exactly `"kidney"`) the cached answer is returned but chunk
retrieval has already been performed — the claim's "chunk retrieval is
never performed" is false. -/
theorem c2_cache_bypass_counterexample :
    chSubstr (strLower "kidney").toList (strLower "kidney function status").toList = true ∧
    (Backend.answerQuestion dbKidney .unavailable "p1"
        "kidney function status").1.method = some "fallback" ∧
    cacheLookup dbKidney "p1" "kidney" = some qaKidneyRow ∧
    (Backend.answerQuestion dbKidney .unavailable "p1" "kidney").1.method =
      some "database_lookup" ∧
    (Backend.answerQuestion dbKidney .unavailable "p1" "kidney").2.retrievalCalled =
      true := by
  exact ⟨by with_unfolding_all rfl, by with_unfolding_all rfl,
    by with_unfolding_all rfl, by with_unfolding_all rfl, by with_unfolding_all rfl⟩

/-- C2 (amended).  The code's cache test is `stored LIKE '%question%'`
(the lower-cased incoming question occurring inside the stored question
text, with `%`/`_` of the question acting as wildcards — the reverse of
the spec's pattern-in-question reading).  When it finds a row (first
matching row in table order), `answer_question` returns that cached
answer with `method="database_lookup"` and the LLM oracle is never
consulted, in both pipeline variants; chunk retrieval, however, has
already been performed before the cache check (its results are unused on
this path). -/
theorem c2_cache_hit_database_lookup (db : DB) (llm openaiB ollamaB : LLMBehavior)
    (patient_id question : String) (r : QARow)
    (hc : cacheLookup db patient_id question = some r) :
    (Backend.answerQuestion db llm patient_id question).1 =
        databaseLookupResult db r ∧
    (Backend.answerQuestion db llm patient_id question).1.method =
        some "database_lookup" ∧
    (Backend.answerQuestion db llm patient_id question).1.answer = r.answer ∧
    (Backend.answerQuestion db llm patient_id question).1.success = true ∧
    (Backend.answerQuestion db llm patient_id question).2 =
        { retrievalCalled := true, llmCalled := false } ∧
    (AIPipeline.answerQuestion db openaiB ollamaB patient_id question).1 =
        databaseLookupResult db r ∧
    (AIPipeline.answerQuestion db openaiB ollamaB patient_id question).2 =
        { retrievalCalled := true, openaiCalled := false, ollamaCalled := false } := by
  have ht := ClinicalContext.truthy_true (getPatientClinicalContext db patient_id)
  simp only [Backend.answerQuestion, AIPipeline.answerQuestion, ht,
    Bool.true_eq_false, if_false, hc]
  exact ⟨by trivial, by trivial, by trivial, by trivial, by trivial, by trivial,
    by trivial⟩

/-- C2 witness: a concrete cache hit, with LLM oracles that would succeed
if consulted — the cached answer still wins and no oracle is invoked. -/
theorem c2_cache_hit_database_lookup_witness :
    (Backend.answerQuestion dbKidney (.result true "llm answer" none) "p1"
        "kidney").1.method = some "database_lookup" ∧
    (Backend.answerQuestion dbKidney (.result true "llm answer" none) "p1"
        "kidney").1.answer = "Cached kidney answer." ∧
    (Backend.answerQuestion dbKidney (.result true "llm answer" none) "p1"
        "kidney").2 = { retrievalCalled := true, llmCalled := false } ∧
    (AIPipeline.answerQuestion dbKidney (.result true "llm answer" none)
        (.result true "llm answer" none) "p1" "kidney").2 =
      { retrievalCalled := true, openaiCalled := false, ollamaCalled := false } := by
  have h := c2_cache_hit_database_lookup dbKidney (.result true "llm answer" none)
    (.result true "llm answer" none) (.result true "llm answer" none) "p1" "kidney"
    qaKidneyRow (by with_unfolding_all rfl)
  exact ⟨h.2.1, h.2.2.1, h.2.2.2.2.1, h.2.2.2.2.2.2⟩

/-- C3 counterexample.  On the backend's LLM-failure path the fallback
result reuses the sources list built for the LLM attempt, whose entries
carry `type "document_chunk"` — not `type "fallback"` as the claim
states. -/
theorem c3_sources_type_counterexample :
    (Backend.answerQuestion dbNoCache .raises "p1" "kidney").1.method =
        some "fallback" ∧
    (Backend.answerQuestion dbNoCache .raises "p1" "kidney").1.sources.map
        (fun s => s.srcType) = ["document_chunk"] ∧
    ¬ ((Backend.answerQuestion dbNoCache .raises "p1" "kidney").1.sources.map
        (fun s => s.srcType) = ["fallback"]) := by
  exact ⟨by with_unfolding_all rfl, by with_unfolding_all rfl,
    by with_unfolding_all decide⟩

/-- C3 (amended).  For a known patient with no cache match, when the LLM
client raises or returns a failure payload, `answer_question` still
returns `success=true` with `method="fallback"`, `confidence_score=0.3`
and the fallback answer text, and no exception escapes (the embedding is a
total function because the source catches all service exceptions).  The
sources are derived from the retrieved chunks in both variants, but they
carry `type "document_chunk"` in the backend variant (which reuses the
LLM-path list) and `type "fallback"` only in the ai-pipeline variant. -/
theorem c3_llm_failure_falls_back (db : DB) (llm openaiB ollamaB : LLMBehavior)
    (patient_id question : String)
    (hc : cacheLookup db patient_id question = none)
    (hfb : llm.fails = true) (hfo : openaiB.fails = true)
    (hfl : ollamaB.fails = true) :
    ((Backend.answerQuestion db llm patient_id question).1.success = true ∧
     (Backend.answerQuestion db llm patient_id question).1.method = some "fallback" ∧
     (Backend.answerQuestion db llm patient_id question).1.confidence_score =
       some (3 / 10) ∧
     (Backend.answerQuestion db llm patient_id question).1.answer =
       Backend.generateFallbackAnswer question (getPatientClinicalContext db patient_id)
         (Backend.retrieveRelevantChunks db patient_id question 3) ∧
     (Backend.answerQuestion db llm patient_id question).1.sources =
       (Backend.retrieveRelevantChunks db patient_id question 3).map chunkSource ∧
     ∀ s ∈ (Backend.answerQuestion db llm patient_id question).1.sources,
       s.srcType = "document_chunk") ∧
    ((AIPipeline.answerQuestion db openaiB ollamaB patient_id question).1.success =
       true ∧
     (AIPipeline.answerQuestion db openaiB ollamaB patient_id question).1.method =
       some "fallback" ∧
     (AIPipeline.answerQuestion db openaiB ollamaB patient_id question).1.confidence_score =
       some (3 / 10) ∧
     (AIPipeline.answerQuestion db openaiB ollamaB patient_id question).1.sources =
       (AIPipeline.retrieveRelevantChunks db patient_id question 3).map (fun ch =>
         ({ document := ch.filename, page := ch.page_number,
            relevance_score := none, srcType := "fallback" } : AnswerSource)) ∧
     ∀ s ∈ (AIPipeline.answerQuestion db openaiB ollamaB patient_id question).1.sources,
       s.srcType = "fallback") := by
  have ht := ClinicalContext.truthy_true (getPatientClinicalContext db patient_id)
  constructor
  · cases llm with
    | unavailable => simp [LLMBehavior.fails] at hfb
    | raises =>
      simp only [Backend.answerQuestion, ht, Bool.true_eq_false, if_false, hc]
      refine ⟨by trivial, by trivial, by trivial, by trivial, by trivial, ?_⟩
      intro s hs
      rcases List.mem_map.mp hs with ⟨ch, _, rfl⟩
      rfl
    | result ok resp conf =>
      cases ok with
      | true => simp [LLMBehavior.fails] at hfb
      | false =>
        simp only [Backend.answerQuestion, ht, Bool.true_eq_false, if_false, hc]
        refine ⟨by trivial, by trivial, by trivial, by trivial, by trivial, ?_⟩
        intro s hs
        rcases List.mem_map.mp hs with ⟨ch, _, rfl⟩
        rfl
  · have hfo2 : ∀ resp conf, openaiB ≠ .result true resp conf := by
      intro resp conf h
      rw [h] at hfo
      simp [LLMBehavior.fails] at hfo
    have hfl2 : ∀ resp conf, ollamaB ≠ .result true resp conf := by
      intro resp conf h
      rw [h] at hfl
      simp [LLMBehavior.fails] at hfl
    cases openaiB with
    | result ok resp conf =>
      cases ok with
      | true => exact absurd rfl (hfo2 resp conf)
      | false =>
        cases ollamaB with
        | result ok2 resp2 conf2 =>
          cases ok2 with
          | true => exact absurd rfl (hfl2 resp2 conf2)
          | false =>
            simp only [AIPipeline.answerQuestion, ht, Bool.true_eq_false, if_false, hc]
            refine ⟨by trivial, by trivial, by trivial, by trivial, ?_⟩
            intro s hs
            rcases List.mem_map.mp hs with ⟨ch, _, rfl⟩
            rfl
        | unavailable =>
          simp only [AIPipeline.answerQuestion, ht, Bool.true_eq_false, if_false, hc]
          refine ⟨by trivial, by trivial, by trivial, by trivial, ?_⟩
          intro s hs
          rcases List.mem_map.mp hs with ⟨ch, _, rfl⟩
          rfl
        | raises =>
          simp only [AIPipeline.answerQuestion, ht, Bool.true_eq_false, if_false, hc]
          refine ⟨by trivial, by trivial, by trivial, by trivial, ?_⟩
          intro s hs
          rcases List.mem_map.mp hs with ⟨ch, _, rfl⟩
          rfl
    | unavailable => simp [LLMBehavior.fails] at hfo
    | raises =>
      cases ollamaB with
      | result ok2 resp2 conf2 =>
        cases ok2 with
        | true => exact absurd rfl (hfl2 resp2 conf2)
        | false =>
          simp only [AIPipeline.answerQuestion, ht, Bool.true_eq_false, if_false, hc]
          refine ⟨by trivial, by trivial, by trivial, by trivial, ?_⟩
          intro s hs
          rcases List.mem_map.mp hs with ⟨ch, _, rfl⟩
          rfl
      | unavailable =>
        simp only [AIPipeline.answerQuestion, ht, Bool.true_eq_false, if_false, hc]
        refine ⟨by trivial, by trivial, by trivial, by trivial, ?_⟩
        intro s hs
        rcases List.mem_map.mp hs with ⟨ch, _, rfl⟩
        rfl
      | raises =>
        simp only [AIPipeline.answerQuestion, ht, Bool.true_eq_false, if_false, hc]
        refine ⟨by trivial, by trivial, by trivial, by trivial, ?_⟩
        intro s hs
        rcases List.mem_map.mp hs with ⟨ch, _, rfl⟩
        rfl

/-- C3 witness: a raising OpenAI client (and a failing Ollama client for
the ai-pipeline variant) on a patient with one retrievable chunk and no
cached answers. -/
theorem c3_llm_failure_falls_back_witness :
    (Backend.answerQuestion dbNoCache .raises "p1" "kidney").1.success = true ∧
    (Backend.answerQuestion dbNoCache .raises "p1" "kidney").1.method =
        some "fallback" ∧
    (Backend.answerQuestion dbNoCache .raises "p1" "kidney").1.confidence_score =
        some (3 / 10) ∧
    (AIPipeline.answerQuestion dbNoCache .raises (.result false "boom" none) "p1"
        "kidney").1.method = some "fallback" := by
  have h := c3_llm_failure_falls_back dbNoCache .raises .raises
    (.result false "boom" none) "p1" "kidney" (by with_unfolding_all rfl) rfl rfl rfl
  exact ⟨h.1.1, h.1.2.1, h.1.2.2.1, h.2.2.1⟩

/-- C5 counterexample.  The backend retriever does not return `[]` for an
empty query: the vacuous phrase-match bonus (`"" in text` is always true
in Python) gives every chunk score `0.5`, so chunks are returned. -/
theorem c5_empty_query_counterexample :
    ¬ (Backend.findRelevantChunks [chunkHello] "" 3 = []) ∧
    Backend.findRelevantChunks [chunkHello] "" 3 =
      [{ toChunk := chunkHello, relevance_score := 1 / 2 }] := by
  exact ⟨by with_unfolding_all decide, by with_unfolding_all rfl⟩

/-- C5 (amended).  An empty chunk list yields `[]` in both variants (and
`retrieve_relevant_chunks` short-circuits to `[]` when the patient has no
chunk rows); an empty query yields `[]` in the ai-pipeline variant, which
guards on it.  The backend variant has no such guard: for an empty query
it scores every chunk `0.5` via the vacuous phrase bonus and returns
`min K n` chunks.  Neither variant raises an error — both are total
functions. -/
theorem c5_empty_inputs :
    (∀ (query : String) (max_chunks : Nat),
        Backend.findRelevantChunks [] query max_chunks = []) ∧
    (∀ (chunks : List Chunk) (query : String) (max_chunks : Nat),
        chunks = [] ∨ query = "" →
        AIPipeline.findRelevantChunks chunks query max_chunks = []) ∧
    (∀ (db : DB) (patient_id query : String) (max_chunks : Nat),
        fetchPatientChunks db patient_id = [] →
        Backend.retrieveRelevantChunks db patient_id query max_chunks = []) ∧
    (∀ (chunks : List Chunk) (max_chunks : Nat),
        (Backend.findRelevantChunks chunks "" max_chunks).length =
          min max_chunks chunks.length) := by
  refine ⟨?_, ?_, ?_, ?_⟩
  · intro query max_chunks
    simp [Backend.findRelevantChunks, sortBy]
  · intro chunks query max_chunks h
    rcases h with h | h
    · subst h
      simp [AIPipeline.findRelevantChunks]
    · subst h
      simp [AIPipeline.findRelevantChunks]
  · intro db patient_id query max_chunks h
    simp [Backend.retrieveRelevantChunks, h]
  · intro chunks max_chunks
    simp [Backend.findRelevantChunks, List.length_take, length_sortBy]

/-- C5 witness: the guarded empty-query and empty-chunk-set cases at
concrete inputs. -/
theorem c5_empty_inputs_witness :
    AIPipeline.findRelevantChunks [chunkHello] "" 3 = [] ∧
    Backend.retrieveRelevantChunks dbEmpty "p1" "kidney" 3 = [] :=
  ⟨c5_empty_inputs.2.1 [chunkHello] "" 3 (Or.inr rfl),
   c5_empty_inputs.2.2.1 dbEmpty "p1" "kidney" 3 rfl⟩

/-- C6 counterexample.  The backend variant keeps zero-score chunks, so
its result can be longer than the number of chunks with strictly positive
score: one chunk sharing no words with the query is still returned. -/
theorem c6_zero_score_counterexample :
    Backend.findRelevantChunks [chunkNotes] "zzz" 3 =
      [{ toChunk := chunkNotes, relevance_score := 0 }] ∧
    ¬ ((Backend.findRelevantChunks [chunkNotes] "zzz" 3).length ≤
        ([chunkNotes].filter
          (fun c => decide (0 < Backend.chunkScore "zzz" c.text))).length) := by
  exact ⟨by with_unfolding_all rfl, by with_unfolding_all decide⟩

/-- C6 (amended).  The K bound holds in both variants: the result never
has more than `max_chunks` elements.  The positive-score bound holds only
in the ai-pipeline variant, which filters on `score > 0`; the backend
variant scores and returns all chunks regardless of score. -/
theorem c6_topk_bounds :
    (∀ (chunks : List Chunk) (query : String) (max_chunks : Nat),
        (Backend.findRelevantChunks chunks query max_chunks).length ≤ max_chunks) ∧
    (∀ (chunks : List Chunk) (query : String) (max_chunks : Nat),
        (AIPipeline.findRelevantChunks chunks query max_chunks).length ≤ max_chunks ∧
        (AIPipeline.findRelevantChunks chunks query max_chunks).length ≤
          (chunks.filter
            (fun c => decide (0 < AIPipeline.chunkScore query c.text))).length) := by
  constructor
  · intro chunks query max_chunks
    simp only [Backend.findRelevantChunks, List.length_take, length_sortBy,
      List.length_map]
    exact Nat.min_le_left _ _
  · intro chunks query max_chunks
    simp only [AIPipeline.findRelevantChunks]
    split
    · simp
    · have hlen := length_filterMap_eq_length_filter
        (fun chunk => if 0 < AIPipeline.chunkScore query chunk.text then
          some ({ toChunk := chunk,
                  relevance_score := AIPipeline.chunkScore query chunk.text } :
            ScoredChunk) else none)
        (fun c => decide (0 < AIPipeline.chunkScore query c.text))
        (fun c => by by_cases h : 0 < AIPipeline.chunkScore query c.text <;> simp [h])
        chunks
      constructor
      · simp only [List.length_take, length_sortBy]
        exact Nat.min_le_left _ _
      · simp only [List.length_take, length_sortBy, hlen]
        exact Nat.min_le_right _ _

/-- C7 counterexample.  A seeded confidence of `0.0` is falsy in Python,
so `qa_row["confidence_score"] or 0.8` replaces it with `0.8`: the cache
hit returns `0.8`, not the seeded `0.0`. -/
theorem c7_zero_confidence_counterexample :
    qaZeroRow.confidence_score = some 0 ∧
    cacheLookup dbZeroConf "p1" "what are the labs" = some qaZeroRow ∧
    (Backend.answerQuestion dbZeroConf .unavailable "p1"
        "what are the labs").1.confidence_score = some (4 / 5) ∧
    ¬ ((Backend.answerQuestion dbZeroConf .unavailable "p1"
        "what are the labs").1.confidence_score = some 0) := by
  exact ⟨rfl, by with_unfolding_all rfl, by with_unfolding_all rfl,
    by with_unfolding_all decide⟩

/-- C7 (amended).  On a cache hit the returned `confidence_score` is the
seeded value when that value is truthy, and `0.8` when the seeded value is
null **or `0.0`** (Python's `or` treats `0.0` as missing). -/
theorem c7_cache_confidence (db : DB) (llm : LLMBehavior)
    (patient_id question : String) (r : QARow)
    (hc : cacheLookup db patient_id question = some r) :
    (Backend.answerQuestion db llm patient_id question).1.confidence_score =
      some (match r.confidence_score with
            | none => 4 / 5
            | some v => if v = 0 then 4 / 5 else v) := by
  have ht := ClinicalContext.truthy_true (getPatientClinicalContext db patient_id)
  simp only [Backend.answerQuestion, ht, Bool.true_eq_false, if_false, hc]
  rfl

/-- C7 witness: a cache hit whose seeded confidence `0.9` is returned
unchanged. -/
theorem c7_cache_confidence_witness :
    (Backend.answerQuestion dbKidney .unavailable "p1"
        "kidney").1.confidence_score = some (9 / 10) := by
  have h := c7_cache_confidence dbKidney .unavailable "p1" "kidney" qaKidneyRow
    (by with_unfolding_all rfl)
  rw [h]
  norm_num [qaKidneyRow]

/-- C4.  The backend retrieval score is exactly the spec's formula:
(1) `chunkScore` equals `specRelevanceScore` on every query and text;
(2) every chunk in the retriever's output carries that score;
(3) a chunk sharing no word with the query scores `0` before the boost
(so its total score is just the boost term); and
(4) a chunk containing every query word of a query that has words scores
`1.0` before the boost. -/
theorem c4_relevance_score_formula :
    (∀ (query text : String),
        Backend.chunkScore query text = specRelevanceScore query text) ∧
    (∀ (query : String) (max_chunks : Nat) (chunks : List Chunk) (sc : ScoredChunk),
        sc ∈ Backend.findRelevantChunks chunks query max_chunks →
        sc.relevance_score = specRelevanceScore query sc.text) ∧
    (∀ (query text : String),
        wordSet query ∩ wordSet text = ∅ →
        Backend.chunkScore query text =
          (if chSubstr (strLower query).toList (strLower text).toList
            then 1 / 2 else 0)) ∧
    (∀ (query text : String),
        wordSet query ≠ ∅ → wordSet query ⊆ wordSet text →
        Backend.chunkScore query text =
          1 + (if chSubstr (strLower query).toList (strLower text).toList
            then 1 / 2 else 0)) := by
  refine ⟨chunkScore_eq_spec, ?_, ?_, ?_⟩
  · intro query max_chunks chunks sc hmem
    simp only [Backend.findRelevantChunks] at hmem
    have h1 := List.take_subset _ _ hmem
    have h2 := (mem_sortBy _ _ _).mp h1
    rcases List.mem_map.mp h2 with ⟨c, _, rfl⟩
    exact chunkScore_eq_spec query c.text
  · intro query text h
    rw [chunkScore_eq_spec]
    simp only [specRelevanceScore]
    rw [h]
    simp
  · intro query text hne hsubset
    rw [chunkScore_eq_spec]
    simp only [specRelevanceScore]
    rw [Finset.inter_eq_left.mpr hsubset]
    have hcard : ((wordSet query).card : ℚ) ≠ 0 := by
      exact_mod_cast Finset.card_ne_zero.mpr (Finset.nonempty_iff_ne_empty.mpr hne)
    rw [div_self hcard]

/-- C4 witness: the retriever applied to a chunk containing both words of
the query `"kidney function"` (score `1.0 + 0.5`), a chunk sharing no
query word (score `0`), and the all-words case, at concrete inputs. -/
theorem c4_relevance_score_formula_witness :
    ((⟨chunkKidney, 3 / 2⟩ : ScoredChunk) ∈
        Backend.findRelevantChunks [chunkKidney] "kidney function" 3 ∧
     (⟨chunkKidney, 3 / 2⟩ : ScoredChunk).relevance_score =
        specRelevanceScore "kidney function"
          (⟨chunkKidney, 3 / 2⟩ : ScoredChunk).text) ∧
    (wordSet "zzz" ∩ wordSet chunkNotes.text = ∅ ∧
     Backend.chunkScore "zzz" chunkNotes.text =
       (if chSubstr (strLower "zzz").toList (strLower chunkNotes.text).toList
         then 1 / 2 else 0)) ∧
    (wordSet "kidney function" ≠ ∅ ∧
     wordSet "kidney function" ⊆ wordSet chunkKidney.text ∧
     Backend.chunkScore "kidney function" chunkKidney.text =
       1 + (if chSubstr (strLower "kidney function").toList
              (strLower chunkKidney.text).toList then 1 / 2 else 0)) := by
  refine ⟨⟨by with_unfolding_all decide, ?_⟩, ⟨by decide, ?_⟩,
    ⟨by decide, by decide, ?_⟩⟩
  · exact c4_relevance_score_formula.2.1 "kidney function" 3 [chunkKidney] _
      (by with_unfolding_all decide)
  · exact c4_relevance_score_formula.2.2.1 "zzz" chunkNotes.text (by decide)
  · exact c4_relevance_score_formula.2.2.2 "kidney function" chunkKidney.text
      (by decide) (by decide)

/-- C9.  In the backend retriever's output, any two chunks with equal
relevance scores appear in ascending order of their original
`chunk_index`: the SQL fetch orders by `chunk_index`, scoring preserves
that order, and Python's stable sort keeps equal-score elements in their
incoming relative order (top-K truncation preserves the invariant). -/
theorem c9_score_ties_ascending_chunk_index (db : DB)
    (patient_id query : String) (max_chunks : Nat) :
    (Backend.retrieveRelevantChunks db patient_id query max_chunks).Pairwise
      (fun a b =>
        a.relevance_score = b.relevance_score → a.chunk_index ≤ b.chunk_index) := by
  simp only [Backend.retrieveRelevantChunks]
  split
  · exact List.Pairwise.nil
  · exact pairwise_tie_findRelevantChunks _ _ _ (fetchPatientChunks_sorted db patient_id)

end HospitalCanvas
